import Mathlib

/-!
Verification of the file-selection / context-assembly core and the
background-task bridge of `openai_helper`.

The embedding models Python strings as lists of characters (`PyStr`), so
that every operation is executable by the kernel.  Compiled regular
expressions are modelled abstractly as their search predicate
(`Pattern`): the code only ever consults `pattern.search(s)` truthiness,
so a compiled pattern is observationally a boolean predicate on strings.
File-system reads are modelled by an explicit result value
(`Except ReadError PyStr`), and the token encoder (an external library)
is a parameter `tokenCount : PyStr → Nat`.
-/

namespace OpenAIHelper

/-- Python `str`, modelled as its list of characters. -/
abbrev PyStr := List Char

/-- Python `str.startswith(p)`. -/
def pyStartsWith (s p : PyStr) : Bool :=
  p.isPrefixOf s

/-- Python `str.strip()`: drop leading and trailing whitespace. -/
def pyStrip (s : PyStr) : PyStr :=
  ((s.dropWhile Char.isWhitespace).reverse.dropWhile Char.isWhitespace).reverse

/-- A compiled regular expression, observationally: its `search`
predicate on strings (`True` when the pattern matches somewhere in the
string). -/
structure Pattern where
  search : PyStr → Bool

/-- A file-system path, as its list of components; `str(path)` is the
components joined by a separator and `path.name` is the last
component. -/
structure FsPath where
  components : List PyStr
deriving DecidableEq

/-- Python `path.name`: the final path component. -/
def FsPath.name (p : FsPath) : PyStr :=
  (p.components.getLast?).getD []

/-- Python `str(path)`: components joined by the path separator. -/
def FsPath.str (p : FsPath) : PyStr :=
  List.intercalate "/".data p.components

/-- Python `path.relative_to(base)` for `base` a prefix of `path`:
drop the leading `base` components. -/
def FsPath.relative_to (p base : FsPath) : FsPath :=
  ⟨p.components.drop base.components.length⟩

/-- The state of a constructed `ContextProvider`
(`context.py`, `ContextProvider.__init__`): each regex field holds the
compiled pattern, or `none` when the argument was falsy (absent or the
empty string). -/
structure ContextProvider where
  directory : FsPath
  regex_whitelist : Option Pattern
  regex_blacklist : Option Pattern
  allow_hidden : Bool
  recursive : Bool
  allow_hidden_subdirectories : Bool
  regex_path_whitelist : Option Pattern
  regex_path_blacklist : Option Pattern
  skip_unreadable : Bool
  skip_empty : Bool

/-- `ContextProvider._file_matches` (`context.py` lines 45-57), a
direct transcription: each `if` guard mirrors
`if self.regex_x and (not) self.regex_x.search(...)` — a `None`
pattern makes the guard falsy, so the check cannot reject. -/
def ContextProvider.file_matches (cp : ContextProvider) (path : FsPath) : Bool :=
  if !cp.allow_hidden && pyStartsWith path.name ".".data then false
  else if (match cp.regex_whitelist with
           | some pat => !pat.search path.name
           | none => false) then false
  else if (match cp.regex_blacklist with
           | some pat => pat.search path.name
           | none => false) then false
  else if (match cp.regex_path_whitelist with
           | some pat => !pat.search path.str
           | none => false) then false
  else if (match cp.regex_path_blacklist with
           | some pat => pat.search path.str
           | none => false) then false
  else true

/-! Spec-side formulation of the filter (§4.1 of the spec): five checks
in a fixed order, each either passing or rejecting, an absent pattern
always passing. `specFilterAccepts` is the conjunction in evaluation
order; it is compared against `ContextProvider.file_matches` (the
code-side definition) in claim C1. -/

/-- Spec check 1: hidden-entry — passes unless the base name is hidden
and `allow_hidden` is off. -/
def specPassesHidden (cp : ContextProvider) (p : FsPath) : Bool :=
  cp.allow_hidden || !pyStartsWith p.name ".".data

/-- Spec check 2: name-whitelist — an absent pattern passes. -/
def specPassesNameWhitelist (cp : ContextProvider) (p : FsPath) : Bool :=
  match cp.regex_whitelist with
  | none => true
  | some pat => pat.search p.name

/-- Spec check 3: name-blacklist — an absent pattern passes. -/
def specPassesNameBlacklist (cp : ContextProvider) (p : FsPath) : Bool :=
  match cp.regex_blacklist with
  | none => true
  | some pat => !pat.search p.name

/-- Spec check 4: path-whitelist — an absent pattern passes. -/
def specPassesPathWhitelist (cp : ContextProvider) (p : FsPath) : Bool :=
  match cp.regex_path_whitelist with
  | none => true
  | some pat => pat.search p.str

/-- Spec check 5: path-blacklist — an absent pattern passes. -/
def specPassesPathBlacklist (cp : ContextProvider) (p : FsPath) : Bool :=
  match cp.regex_path_blacklist with
  | none => true
  | some pat => !pat.search p.str

/-- Spec filter: the five checks evaluated in order, rejecting on the
first failure and accepting only when all pass (`&&` short-circuits in
exactly that order). -/
def specFilterAccepts (cp : ContextProvider) (p : FsPath) : Bool :=
  specPassesHidden cp p && specPassesNameWhitelist cp p &&
    specPassesNameBlacklist cp p && specPassesPathWhitelist cp p &&
    specPassesPathBlacklist cp p

/-- Claim C1: `_file_matches` evaluates the checks in the fixed order
hidden-entry, name-whitelist, name-blacklist, path-whitelist,
path-blacklist, rejecting on the first failing check and accepting only
when all pass (it coincides with the spec's ordered five-check filter);
an absent (`None`) rule never rejects (with all four patterns absent the
filter is exactly the hidden-entry check); and when `allow_hidden` is
false a file whose base name starts with `.` is rejected regardless of
any whitelist match. -/
theorem ContextProvider.file_matches_spec (cp : ContextProvider) (p : FsPath) :
    cp.file_matches p = specFilterAccepts cp p ∧
    (cp.regex_whitelist = none → cp.regex_blacklist = none →
      cp.regex_path_whitelist = none → cp.regex_path_blacklist = none →
      cp.file_matches p = specPassesHidden cp p) ∧
    (cp.allow_hidden = false → pyStartsWith p.name ".".data = true →
      cp.file_matches p = false) := by
  rcases cp with ⟨d, wl, bl, ah, rc, ahs, pwl, pbl, su, se⟩
  refine ⟨?_, ?_, ?_⟩
  · rcases wl with _ | w <;> rcases bl with _ | b <;>
      rcases pwl with _ | pw <;> rcases pbl with _ | pb <;>
      rcases ah <;>
      simp only [ContextProvider.file_matches, specFilterAccepts, specPassesHidden,
        specPassesNameWhitelist, specPassesNameBlacklist, specPassesPathWhitelist,
        specPassesPathBlacklist] <;>
      rcases hst : pyStartsWith p.name ".".data <;>
      (try rcases hq2 : w.search p.name) <;>
      (try rcases hq3 : b.search p.name) <;>
      (try rcases hq4 : pw.search p.str) <;>
      (try rcases hq5 : pb.search p.str) <;>
      simp
  · intro h1 h2 h3 h4
    subst h1; subst h2; subst h3; subst h4
    simp only [ContextProvider.file_matches, specPassesHidden]
    rcases ah <;> rcases pyStartsWith p.name ".".data <;> rfl
  · intro hh hs
    subst hh
    simp only [ContextProvider.file_matches]
    rw [hs]
    rfl

/-- A concrete provider used to witness the filter claim: no patterns,
hidden files not allowed. -/
def cpHiddenOnly : ContextProvider where
  directory := ⟨["proj".data]⟩
  regex_whitelist := none
  regex_blacklist := none
  allow_hidden := false
  recursive := true
  allow_hidden_subdirectories := false
  regex_path_whitelist := none
  regex_path_blacklist := none
  skip_unreadable := true
  skip_empty := false

/-- Witness for C1 at a concrete provider and hidden file `.env`: all
hypotheses discharged, the hidden file is rejected. -/
theorem ContextProvider.file_matches_spec_witness :
    cpHiddenOnly.file_matches ⟨["proj".data, ".env".data]⟩ = specFilterAccepts cpHiddenOnly ⟨["proj".data, ".env".data]⟩ ∧
    cpHiddenOnly.file_matches ⟨["proj".data, ".env".data]⟩ = specPassesHidden cpHiddenOnly ⟨["proj".data, ".env".data]⟩ ∧
    cpHiddenOnly.file_matches ⟨["proj".data, ".env".data]⟩ = false := by
  have h := ContextProvider.file_matches_spec cpHiddenOnly ⟨["proj".data, ".env".data]⟩
  exact ⟨h.1, h.2.1 rfl rfl rfl rfl, h.2.2 rfl (by decide)⟩

/-! The file-collection pipeline, `ContextProvider.iter_files`
(`context.py` lines 71-86).  The generator consumes the paths yielded by
`iter_file_paths`; here the yielded sequence is the input list, each
element carrying the outcome of `path.read_text()`.  A run of the
generator produces the list of yielded records together with the
exception, if any, that aborted it (records yielded before the abort
remain). -/

/-- Outcome of `path.read_text()` when it raises: either a
`UnicodeDecodeError` (the only class the `except` clause catches) or any
other `OSError`-like failure. -/
inductive ReadError where
  | unicodeDecodeError
  | osError (detail : PyStr)
deriving DecidableEq

/-- One candidate file as seen by `iter_files`: its path and the result
of reading its text. -/
structure FileRead where
  path : FsPath
  readResult : Except ReadError PyStr

/-- `ContextProvider.iter_files` (`context.py` lines 71-86): for each
yielded path, read and strip the content; on `UnicodeDecodeError`
either `continue` (when `skip_unreadable`) or re-`raise`; any other read
error propagates unconditionally; skip stripped-empty content when
`skip_empty`; otherwise yield `(token_count, path, content)`.  Returns
the yielded records and the aborting error, if any. -/
def ContextProvider.iter_files (cp : ContextProvider) (tokenCount : PyStr → Nat) :
    List FileRead → List (Nat × FsPath × PyStr) × Option ReadError
  | [] => ([], none)
  | fr :: rest =>
    match fr.readResult with
    | .error ReadError.unicodeDecodeError =>
        if cp.skip_unreadable then cp.iter_files tokenCount rest
        else ([], some ReadError.unicodeDecodeError)
    | .error (ReadError.osError detail) => ([], some (ReadError.osError detail))
    | .ok raw =>
        let content := pyStrip raw
        if cp.skip_empty && content.isEmpty then cp.iter_files tokenCount rest
        else
          let r := cp.iter_files tokenCount rest
          ((tokenCount content, fr.path, content) :: r.1, r.2)

/-- Splitting a run of `iter_files` at a list append, when the first
part completes without an aborting error. -/
theorem iter_files_append_ok (cp : ContextProvider) (tc : PyStr → Nat)
    (xs ys : List FileRead) (h : (cp.iter_files tc xs).2 = none) :
    cp.iter_files tc (xs ++ ys) =
      ((cp.iter_files tc xs).1 ++ (cp.iter_files tc ys).1, (cp.iter_files tc ys).2) := by
  induction xs with
  | nil => simp [ContextProvider.iter_files]
  | cons fr rest ih =>
    rcases hr : fr.readResult with e | raw
    · rcases e with _ | detail
      · rcases hs : cp.skip_unreadable
        · exfalso
          simp [ContextProvider.iter_files, hr, hs] at h
        · simp only [List.cons_append, ContextProvider.iter_files, hr, hs,
            List.append_eq, if_true] at h ⊢
          exact ih h
      · exfalso
        simp [ContextProvider.iter_files, hr] at h
    · rcases hse : cp.skip_empty && (pyStrip raw).isEmpty
      · simp only [List.cons_append, ContextProvider.iter_files, hr, hse,
          List.append_eq, Bool.false_eq_true, if_false] at h ⊢
        rw [ih h]
      · simp only [List.cons_append, ContextProvider.iter_files, hr, hse,
          List.append_eq, if_true] at h ⊢
        exact ih h

/-- Claim C2: a file whose content fails to decode is silently omitted
when `skip_unreadable` is set (iteration continues, the other files are
still collected); when it is not set the collection aborts with the
decode error, and every record yielded before the failing file
remains. -/
theorem iter_files_decode_failure (cp : ContextProvider) (tc : PyStr → Nat)
    (pre post : List FileRead) (p : FsPath)
    (hpre : (cp.iter_files tc pre).2 = none) :
    (cp.skip_unreadable = true →
      cp.iter_files tc (pre ++ ⟨p, .error ReadError.unicodeDecodeError⟩ :: post)
        = cp.iter_files tc (pre ++ post)) ∧
    (cp.skip_unreadable = false →
      cp.iter_files tc (pre ++ ⟨p, .error ReadError.unicodeDecodeError⟩ :: post)
        = ((cp.iter_files tc pre).1, some ReadError.unicodeDecodeError)) := by
  constructor
  · intro hs
    rw [iter_files_append_ok cp tc pre _ hpre, iter_files_append_ok cp tc pre _ hpre]
    simp [ContextProvider.iter_files, hs]
  · intro hs
    rw [iter_files_append_ok cp tc pre _ hpre]
    simp [ContextProvider.iter_files, hs]

/-- Claim C9: only `UnicodeDecodeError` is absorbed by
`skip_unreadable`; any other read failure aborts the collection even
when `skip_unreadable` is set (the statement holds for every value of
the flag). -/
theorem iter_files_other_error_propagates (cp : ContextProvider) (tc : PyStr → Nat)
    (pre post : List FileRead) (p : FsPath) (detail : PyStr)
    (hpre : (cp.iter_files tc pre).2 = none) :
    cp.iter_files tc (pre ++ ⟨p, .error (ReadError.osError detail)⟩ :: post)
      = ((cp.iter_files tc pre).1, some (ReadError.osError detail)) := by
  rw [iter_files_append_ok cp tc pre _ hpre]
  simp [ContextProvider.iter_files]

/-- Claim C5: a file whose stripped content is empty is omitted when
`skip_empty` is set; when `skip_empty` is not set it is yielded as a
record with token count `0` (the token encoder maps the empty string to
zero tokens). -/
theorem iter_files_empty_content (cp : ContextProvider) (tc : PyStr → Nat)
    (pre post : List FileRead) (p : FsPath) (raw : PyStr)
    (hpre : (cp.iter_files tc pre).2 = none)
    (hraw : pyStrip raw = []) :
    (cp.skip_empty = true →
      cp.iter_files tc (pre ++ ⟨p, .ok raw⟩ :: post) = cp.iter_files tc (pre ++ post)) ∧
    (cp.skip_empty = false → tc [] = 0 →
      cp.iter_files tc (pre ++ ⟨p, .ok raw⟩ :: post)
        = ((cp.iter_files tc pre).1 ++ (0, p, ([] : PyStr)) :: (cp.iter_files tc post).1,
           (cp.iter_files tc post).2)) := by
  constructor
  · intro hs
    rw [iter_files_append_ok cp tc pre _ hpre, iter_files_append_ok cp tc pre _ hpre]
    simp [ContextProvider.iter_files, hs, hraw]
  · intro hs htc
    rw [iter_files_append_ok cp tc pre _ hpre]
    simp [ContextProvider.iter_files, hs, hraw, htc]

/-- A token counter used in witnesses: the number of characters (any
concrete deterministic counter works; it maps the empty string to 0,
as `tiktoken` does). -/
def tcLen : PyStr → Nat := List.length

/-- Witness provider with `skip_unreadable := true`, `skip_empty := true`. -/
def cpSkip : ContextProvider :=
  { cpHiddenOnly with skip_unreadable := true, skip_empty := true }

/-- Witness provider with `skip_unreadable := false`, `skip_empty := false`. -/
def cpNoSkip : ContextProvider :=
  { cpHiddenOnly with skip_unreadable := false, skip_empty := false }

/-- Witness file list: one ordinary readable file. -/
def preReads : List FileRead :=
  [⟨⟨["proj".data, "a.py".data]⟩, .ok "print(1)".data⟩]

/-- Witness file list: one readable file appearing after the special one. -/
def postReads : List FileRead :=
  [⟨⟨["proj".data, "b.py".data]⟩, .ok "x = 2".data⟩]

/-- Witness for C2, at a concrete run: with `skip_unreadable` the
undecodable file is dropped and both neighbours are collected; without
it the run aborts with the decode error, keeping the record collected
before the failure. -/
theorem iter_files_decode_failure_witness :
    cpSkip.iter_files tcLen
        (preReads ++ ⟨⟨["proj".data, "bin.dat".data]⟩, .error ReadError.unicodeDecodeError⟩ :: postReads)
      = cpSkip.iter_files tcLen (preReads ++ postReads) ∧
    cpNoSkip.iter_files tcLen
        (preReads ++ ⟨⟨["proj".data, "bin.dat".data]⟩, .error ReadError.unicodeDecodeError⟩ :: postReads)
      = ((cpNoSkip.iter_files tcLen preReads).1, some ReadError.unicodeDecodeError) :=
  ⟨(iter_files_decode_failure cpSkip tcLen preReads postReads
      ⟨["proj".data, "bin.dat".data]⟩ (by decide)).1 rfl,
   (iter_files_decode_failure cpNoSkip tcLen preReads postReads
      ⟨["proj".data, "bin.dat".data]⟩ (by decide)).2 rfl⟩

/-- Witness for C9, at a concrete run: a non-decode read failure aborts
the collection even though `skip_unreadable` is set. -/
theorem iter_files_other_error_propagates_witness :
    cpSkip.iter_files tcLen
        (preReads ++ ⟨⟨["proj".data, "locked.py".data]⟩, .error (ReadError.osError "PermissionError".data)⟩ :: postReads)
      = ((cpSkip.iter_files tcLen preReads).1, some (ReadError.osError "PermissionError".data)) ∧
    cpSkip.skip_unreadable = true :=
  ⟨iter_files_other_error_propagates cpSkip tcLen preReads postReads
      ⟨["proj".data, "locked.py".data]⟩ "PermissionError".data (by decide),
   by decide⟩

/-- Witness for C5, at a concrete run: the whitespace-only file
`empty.txt` is dropped when `skip_empty` is set and yielded with token
count 0 when it is not. -/
theorem iter_files_empty_content_witness :
    cpSkip.iter_files tcLen
        (preReads ++ ⟨⟨["proj".data, "empty.txt".data]⟩, .ok "  \n".data⟩ :: postReads)
      = cpSkip.iter_files tcLen (preReads ++ postReads) ∧
    cpNoSkip.iter_files tcLen
        (preReads ++ ⟨⟨["proj".data, "empty.txt".data]⟩, .ok "  \n".data⟩ :: postReads)
      = ((cpNoSkip.iter_files tcLen preReads).1
          ++ (0, ⟨["proj".data, "empty.txt".data]⟩, ([] : PyStr)) :: (cpNoSkip.iter_files tcLen postReads).1,
         (cpNoSkip.iter_files tcLen postReads).2) :=
  ⟨(iter_files_empty_content cpSkip tcLen preReads postReads
      ⟨["proj".data, "empty.txt".data]⟩ "  \n".data (by decide) (by decide)).1 rfl,
   (iter_files_empty_content cpNoSkip tcLen preReads postReads
      ⟨["proj".data, "empty.txt".data]⟩ "  \n".data (by decide) (by decide)).2 rfl rfl⟩

/-! Context assembly, `ContextProvider.get_context`
(`context.py` lines 92-97): the records emitted by `iter_files` are
rendered as blocks and joined with `"\n\n\n"`. -/

/-- One rendered block, the f-string
`f"// File \x27{path.relative_to(self.directory)}\x27\n{content}\n"`
of `get_context`. -/
def renderBlock (directory : FsPath) (r : Nat × FsPath × PyStr) : PyStr :=
  "// File \x27".data ++ (r.2.1.relative_to directory).str ++ "\x27\n".data
    ++ r.2.2 ++ "\n".data

/-- The `"\n\n\n".join(...)` of `get_context`, applied to an already
collected record sequence. -/
def render (directory : FsPath) (recs : List (Nat × FsPath × PyStr)) : PyStr :=
  List.intercalate "\n\n\n".data (recs.map (renderBlock directory))

/-- `ContextProvider.get_context` (`context.py` lines 92-97): join the
blocks of all records emitted by `iter_files`; when the iteration aborts
with a read error the call propagates that error. -/
def ContextProvider.get_context (cp : ContextProvider) (tokenCount : PyStr → Nat)
    (files : List FileRead) : Except ReadError PyStr :=
  match cp.iter_files tokenCount files with
  | (recs, none) => .ok (render cp.directory recs)
  | (_, some e) => .error e

/-- Claim C3: `get_context` renders exactly the records emitted by the
collector, in emission order; the empty record sequence renders to the
empty string; a single record renders to one header line naming the
record's path relative to the scan root followed by the record's
content (and the blank trailer line); and with two or more records
consecutive blocks are joined by the three-newline (two blank lines)
separator. -/
theorem get_context_rendering (cp : ContextProvider) (tc : PyStr → Nat)
    (files : List FileRead) (r r2 : Nat × FsPath × PyStr)
    (rest : List (Nat × FsPath × PyStr))
    (h : (cp.iter_files tc files).2 = none) :
    cp.get_context tc files = .ok (render cp.directory (cp.iter_files tc files).1) ∧
    render cp.directory [] = [] ∧
    render cp.directory [r] =
      "// File \x27".data ++ (r.2.1.relative_to cp.directory).str ++ "\x27\n".data
        ++ r.2.2 ++ "\n".data ∧
    render cp.directory (r :: r2 :: rest) =
      renderBlock cp.directory r ++ "\n\n\n".data ++ render cp.directory (r2 :: rest) := by
  refine ⟨?_, ?_, ?_, ?_⟩
  · unfold ContextProvider.get_context
    rcases he : cp.iter_files tc files with ⟨recs, err⟩
    rcases err with _ | e
    · rfl
    · exfalso
      rw [he] at h
      exact Option.noConfusion h
  · simp [render, List.intercalate]
  · simp [render, renderBlock, List.intercalate]
  · simp [render, renderBlock, List.intercalate]

/-- Witness for C3 at a concrete provider and a concrete two-file run:
the rendered context and the joining of the two blocks, all hypotheses
discharged. -/
theorem get_context_rendering_witness :
    cpSkip.get_context tcLen (preReads ++ postReads)
      = .ok (render cpSkip.directory (cpSkip.iter_files tcLen (preReads ++ postReads)).1) ∧
    render cpSkip.directory [] = [] ∧
    render cpSkip.directory [(8, ⟨["proj".data, "a.py".data]⟩, "print(1)".data)] =
      "// File \x27".data ++ (FsPath.relative_to ⟨["proj".data, "a.py".data]⟩ cpSkip.directory).str
        ++ "\x27\n".data ++ "print(1)".data ++ "\n".data ∧
    render cpSkip.directory
        ((8, ⟨["proj".data, "a.py".data]⟩, "print(1)".data)
          :: (5, ⟨["proj".data, "b.py".data]⟩, "x = 2".data) :: []) =
      renderBlock cpSkip.directory (8, ⟨["proj".data, "a.py".data]⟩, "print(1)".data)
        ++ "\n\n\n".data
        ++ render cpSkip.directory [(5, ⟨["proj".data, "b.py".data]⟩, "x = 2".data)] :=
  get_context_rendering cpSkip tcLen (preReads ++ postReads)
    (8, ⟨["proj".data, "a.py".data]⟩, "print(1)".data)
    (5, ⟨["proj".data, "b.py".data]⟩, "x = 2".data) [] (by decide)

/-! The background-task bridge, `BackgroundTask`
(`ui/main_frame.py` lines 37-86).  The unit of work either returns a
value or raises; `BackgroundTask.run` wraps the call in
`try/except Exception` and puts exactly one dictionary on the result
queue: `{"result": value}` on return, or
`{"error": "Unexpected error occurred", "exception": error}` on raise.
The model returns the list of queue puts performed by one run. -/

/-- A raised Python exception, abstractly: its message. -/
structure Exn where
  message : PyStr
deriving DecidableEq

/-- One dictionary placed on `result_queue`: either a result dictionary
or an error dictionary carrying the wrapped exception. -/
inductive TaskOutcome (α : Type) where
  | result (value : α)
  | failure (message : PyStr) (exception : Exn)
deriving DecidableEq

/-- `BackgroundTask.run` (`ui/main_frame.py` lines 78-85): the sequence
of queue puts performed by one run of the worker, given the outcome of
the unit of work `self.target(*args, **kwargs)`. -/
def BackgroundTask.run {α : Type} (target : Except Exn α) : List (TaskOutcome α) :=
  match target with
  | .error e => [TaskOutcome.failure "Unexpected error occurred".data e]
  | .ok v => [TaskOutcome.result v]

/-- Claim C4: one run of a `BackgroundTask` puts exactly one outcome on
the queue; when the work returns a value the single outcome is a
success carrying exactly that value, and when the work raises the
single outcome is a failure wrapping the raised exception — never a
corrupted success and never both variants. -/
theorem BackgroundTask.run_exactly_one_outcome {α : Type} (target : Except Exn α) :
    (BackgroundTask.run target).length = 1 ∧
    (∀ v : α, target = .ok v →
      BackgroundTask.run target = [TaskOutcome.result v]) ∧
    (∀ e : Exn, target = .error e →
      BackgroundTask.run target = [TaskOutcome.failure "Unexpected error occurred".data e]) := by
  rcases target with e | v
  · refine ⟨rfl, fun v hv => Except.noConfusion hv, fun e' he => ?_⟩
    injection he with h
    subst h
    rfl
  · refine ⟨rfl, fun v' hv => ?_, fun e he => Except.noConfusion he⟩
    injection hv with h
    subst h
    rfl

/-- Witness for C4 at the two concrete outcomes: a returning unit of
work yields the single success put, a raising one the single failure
put wrapping its exception. -/
theorem BackgroundTask.run_exactly_one_outcome_witness :
    BackgroundTask.run (.ok (42 : Nat)) = [TaskOutcome.result 42] ∧
    BackgroundTask.run (α := Nat) (.error ⟨"boom".data⟩)
      = [TaskOutcome.failure "Unexpected error occurred".data ⟨"boom".data⟩] ∧
    (BackgroundTask.run (.ok (42 : Nat))).length = 1 :=
  ⟨(BackgroundTask.run_exactly_one_outcome (.ok 42)).2.1 42 rfl,
   (BackgroundTask.run_exactly_one_outcome (.error ⟨"boom".data⟩)).2.2 ⟨"boom".data⟩ rfl,
   (BackgroundTask.run_exactly_one_outcome (.ok 42)).1⟩

/-! The model-listing path (`ui/main_frame.py`):
`ModelProviderBackgroundTask.list_models` (lines 94-101) filters the
service's model records by the root-name convention, and
`OpenAISettingsFrame.update_models_list` (lines 255-260) sorts the
surviving identifiers before placing them in the combobox.  Python's
`sorted` on strings is a stable sort by code-point lexicographic order,
modelled by `lexLe` / `pySorted`. -/

/-- Python's `<=` on strings: lexicographic comparison by code
point. -/
def lexLe : PyStr → PyStr → Bool
  | [], _ => true
  | _ :: _, [] => false
  | a :: as, b :: bs =>
    if a.toNat < b.toNat then true
    else if b.toNat < a.toNat then false
    else lexLe as bs

/-- Unfolding `lexLe` on two nonempty strings. -/
theorem lexLe_cons_iff (a b : Char) (as bs : PyStr) :
    lexLe (a :: as) (b :: bs) = true ↔
      a.toNat < b.toNat ∨ (a.toNat = b.toNat ∧ lexLe as bs = true) := by
  by_cases hab : a.toNat < b.toNat
  · simp [lexLe, hab]
  · by_cases hba : b.toNat < a.toNat
    · simp only [lexLe, if_neg hab, if_pos hba, Bool.false_eq_true, false_iff]
      rintro (h | ⟨h, -⟩) <;> omega
    · have heq : a.toNat = b.toNat := by omega
      simp [lexLe, hab, hba, heq]

/-- `lexLe` is total. -/
theorem lexLe_total (xs ys : PyStr) : (lexLe xs ys || lexLe ys xs) = true := by
  induction xs generalizing ys with
  | nil => simp [lexLe]
  | cons a as ih =>
    cases ys with
    | nil => simp [lexLe]
    | cons b bs =>
      by_cases hab : a.toNat < b.toNat
      · simp [lexLe, hab]
      · by_cases hba : b.toNat < a.toNat
        · simp [lexLe, hab, hba]
        · simpa [lexLe, hab, hba] using ih bs

/-- `lexLe` is transitive. -/
theorem lexLe_trans : ∀ xs ys zs : PyStr,
    lexLe xs ys = true → lexLe ys zs = true → lexLe xs zs = true
  | [], _, _, _, _ => by simp [lexLe]
  | _ :: _, [], _, h1, _ => by simp [lexLe] at h1
  | _ :: _, _ :: _, [], _, h2 => by simp [lexLe] at h2
  | a :: as, b :: bs, c :: cs, h1, h2 => by
    rw [lexLe_cons_iff] at h1 h2 ⊢
    rcases h1 with h1 | ⟨h1e, h1r⟩ <;> rcases h2 with h2 | ⟨h2e, h2r⟩
    · exact Or.inl (by omega)
    · exact Or.inl (by omega)
    · exact Or.inl (by omega)
    · exact Or.inr ⟨by omega, lexLe_trans as bs cs h1r h2r⟩

/-- Python `sorted` on a list of strings: a stable sort by `lexLe`. -/
def pySorted (xs : List PyStr) : List PyStr :=
  xs.mergeSort lexLe

/-- One record returned by the model-listing service: the fields the
code reads, `model["id"]` and `model["root"]`. -/
structure ModelInfo where
  id : PyStr
  root : PyStr
deriving DecidableEq

/-- The root-name convention of `list_models`
(`ui/main_frame.py` line 100):
`str(model["root"]).startswith(("code-", "text-", "gpt-"))`. -/
def recognizedRoot (root : PyStr) : Bool :=
  pyStartsWith root "code-".data || pyStartsWith root "text-".data
    || pyStartsWith root "gpt-".data

/-- `ModelProviderBackgroundTask.list_models`
(`ui/main_frame.py` lines 94-101): keep the identifiers of the records
whose root carries a recognized family name. -/
def list_models (data : List ModelInfo) : List PyStr :=
  (data.filter fun m => recognizedRoot m.root).map fun m => m.id

/-- `OpenAISettingsFrame.update_models_list`
(`ui/main_frame.py` lines 255-260): the combobox values are
`tuple(sorted(models))`. -/
def update_models_list (models : List PyStr) : List PyStr :=
  pySorted models

/-- Claim C7: the identifiers exposed to the user
(`update_models_list` applied to the outcome of `list_models`) are a
permutation of exactly the identifiers whose root starts with a
recognized family name (`code-`, `text-` or `gpt-`), they are sorted
lexicographically, and an identifier appears among them exactly when
some listed record carries it with a recognized root. -/
theorem models_exposed (data : List ModelInfo) :
    (update_models_list (list_models data)).Perm
        ((data.filter fun m => recognizedRoot m.root).map fun m => m.id) ∧
    List.Pairwise (fun a b => lexLe a b = true)
        (update_models_list (list_models data)) ∧
    ∀ s : PyStr, s ∈ update_models_list (list_models data) ↔
      ∃ m, m ∈ data ∧ m.id = s ∧ recognizedRoot m.root = true := by
  refine ⟨?_, ?_, ?_⟩
  · exact List.mergeSort_perm _ _
  · exact List.sorted_mergeSort lexLe_trans lexLe_total _
  · intro s
    rw [update_models_list, pySorted,
      (List.mergeSort_perm (list_models data) lexLe).mem_iff]
    simp only [list_models, List.mem_map, List.mem_filter]
    constructor
    · rintro ⟨m, ⟨hm, hr⟩, hid⟩
      exact ⟨m, hm, hid, hr⟩
    · rintro ⟨m, hm, hid, hr⟩
      exact ⟨m, ⟨hm, hr⟩, hid⟩

/-! `MainFrame.generate` (`ui/main_frame.py` lines 478-501): the domain
preconditions are checked synchronously; only when all pass is a
`CompletionAPIBackgroundTask` built and started.  The model returns the
outcome of the call: either the error dialog shown (and no task) or the
spawned task's parameters. -/

/-- The widget state `generate` reads. -/
structure GenerateState where
  openai_api_token : PyStr
  selected_model : PyStr
  prompt : PyStr
  max_tokens : Nat

/-- The parameters of the spawned `CompletionAPIBackgroundTask`. -/
structure CompletionTaskSpec where
  api_token : PyStr
  model : PyStr
  prompt : PyStr
  max_tokens : Nat
deriving DecidableEq

/-- What one call of `generate` does: either show a synchronous error
(no worker is spawned) or spawn the background completion task. -/
inductive GenerateOutcome where
  | showError (message : PyStr)
  | spawned (task : CompletionTaskSpec)
deriving DecidableEq

/-- `MainFrame.generate` (`ui/main_frame.py` lines 478-501): the three
`if not ...` guards in source order (Python's `not` on a string tests
emptiness), then the task construction. -/
def MainFrame.generate (st : GenerateState) : GenerateOutcome :=
  if st.openai_api_token = [] then
    GenerateOutcome.showError "OpenAI API token is not set".data
  else if st.selected_model = [] then
    GenerateOutcome.showError "Model is not selected".data
  else if st.prompt = [] then
    GenerateOutcome.showError "Prompt is empty".data
  else
    GenerateOutcome.spawned
      ⟨st.openai_api_token, st.selected_model, st.prompt, st.max_tokens⟩

/-- Claim C8: with an empty API token, no model selected, or an empty
prompt, `generate` surfaces an error synchronously and spawns no
worker; a worker is spawned exactly when all three preconditions
hold. -/
theorem MainFrame.generate_preconditions (st : GenerateState) :
    (st.openai_api_token = [] ∨ st.selected_model = [] ∨ st.prompt = [] →
      ∃ msg, MainFrame.generate st = GenerateOutcome.showError msg) ∧
    ((∃ t, MainFrame.generate st = GenerateOutcome.spawned t) ↔
      st.openai_api_token ≠ [] ∧ st.selected_model ≠ [] ∧ st.prompt ≠ []) := by
  by_cases h1 : st.openai_api_token = [] <;>
    by_cases h2 : st.selected_model = [] <;>
    by_cases h3 : st.prompt = [] <;>
    simp [MainFrame.generate, h1, h2, h3]

/-- Witness for C8: an empty token yields the synchronous error, a
fully supplied state spawns the task. -/
theorem MainFrame.generate_preconditions_witness :
    (∃ msg, MainFrame.generate ⟨[], "gpt-4".data, "hello".data, 500⟩
      = GenerateOutcome.showError msg) ∧
    (∃ t, MainFrame.generate ⟨"sk-abc".data, "gpt-4".data, "hello".data, 500⟩
      = GenerateOutcome.spawned t) :=
  ⟨(MainFrame.generate_preconditions ⟨[], "gpt-4".data, "hello".data, 500⟩).1
      (Or.inl rfl),
   (MainFrame.generate_preconditions ⟨"sk-abc".data, "gpt-4".data, "hello".data, 500⟩).2.mpr
      ⟨by decide, by decide, by decide⟩⟩

/-! `ContextProvider.__init__` (`context.py` lines 20-43).  Each rule
is handled by `re.compile(rule) if rule else None`: a falsy rule
(`None` or the empty string) compiles nothing and stores `None`; a
truthy rule is compiled once, and a malformed pattern makes the
constructor raise there, before any traversal can start (no provider
value exists on which `iter_file_paths` could run).  `re.compile` is
the external regex engine, a parameter `compile`; runs of `__init__`
also return the list of pattern strings passed to `compile`, in call
order, so that "compiled exactly once at construction" is a statement
of the model. -/

/-- A pattern-compilation failure (`re.error`). -/
inductive RegexError where
  | malformed (pattern : PyStr)
deriving DecidableEq

/-- The keyword arguments of `ContextProvider.__init__`, with the
source's defaults. -/
structure InitArgs where
  directory : FsPath
  regex_whitelist : Option PyStr := none
  regex_blacklist : Option PyStr := none
  allow_hidden : Bool := false
  recursive : Bool := true
  allow_hidden_subdirectories : Bool := false
  regex_path_whitelist : Option PyStr := none
  regex_path_blacklist : Option PyStr := none
  skip_unreadable : Bool := true
  skip_empty : Bool := false

/-- `re.compile(rule) if rule else None` for one rule, together with
the pattern strings passed to `re.compile` (none when the rule is
falsy). -/
def compileRule (compile : PyStr → Except RegexError Pattern) (rule : Option PyStr) :
    Except RegexError (Option Pattern) × List PyStr :=
  match rule with
  | none => (Except.ok none, [])
  | some s => if s.isEmpty then (Except.ok none, []) else ((compile s).map some, [s])

/-- The pattern strings one rule makes `__init__` compile: one string
when the rule is truthy, none otherwise. -/
def ruleString : Option PyStr → List PyStr
  | none => []
  | some s => if s.isEmpty then [] else [s]

/-- All pattern strings `__init__` would compile, in source order. -/
def initRuleStrings (args : InitArgs) : List PyStr :=
  ruleString args.regex_whitelist ++ ruleString args.regex_blacklist ++
    ruleString args.regex_path_whitelist ++ ruleString args.regex_path_blacklist

/-- `ContextProvider.__init__` (`context.py` lines 20-43): the four
rules are compiled in source order, the constructor raising at the
first failing compilation; on success the provider record is built.
The second component is the trace of strings passed to `re.compile`. -/
def ContextProvider.init (compile : PyStr → Except RegexError Pattern)
    (args : InitArgs) : Except RegexError ContextProvider × List PyStr :=
  match compileRule compile args.regex_whitelist with
  | (.error e, t1) => (.error e, t1)
  | (.ok wl, t1) =>
    match compileRule compile args.regex_blacklist with
    | (.error e, t2) => (.error e, t1 ++ t2)
    | (.ok bl, t2) =>
      match compileRule compile args.regex_path_whitelist with
      | (.error e, t3) => (.error e, t1 ++ t2 ++ t3)
      | (.ok pwl, t3) =>
        match compileRule compile args.regex_path_blacklist with
        | (.error e, t4) => (.error e, t1 ++ t2 ++ t3 ++ t4)
        | (.ok pbl, t4) =>
          (Except.ok
            { directory := args.directory
              regex_whitelist := wl
              regex_blacklist := bl
              allow_hidden := args.allow_hidden
              recursive := args.recursive
              allow_hidden_subdirectories := args.allow_hidden_subdirectories
              regex_path_whitelist := pwl
              regex_path_blacklist := pbl
              skip_unreadable := args.skip_unreadable
              skip_empty := args.skip_empty },
           t1 ++ t2 ++ t3 ++ t4)

/-- The trace of one rule's compilation is exactly its truthy pattern
string. -/
theorem compileRule_trace (compile : PyStr → Except RegexError Pattern)
    (rule : Option PyStr) : (compileRule compile rule).2 = ruleString rule := by
  rcases rule with _ | s
  · rfl
  · by_cases he : s = []
    · subst he; rfl
    · simp [compileRule, ruleString, he]

/-- When a rule's compilation succeeds, every string it compiles
(there is at most one) compiles successfully. -/
theorem compileRule_ok_forward (compile : PyStr → Except RegexError Pattern)
    (rule : Option PyStr) (op : Option Pattern)
    (h : (compileRule compile rule).1 = Except.ok op) :
    ∀ s ∈ ruleString rule, ∃ pat, compile s = Except.ok pat := by
  rcases rule with _ | s
  · intro s hs
    exact absurd hs (List.not_mem_nil s)
  · by_cases he : s = []
    · intro s' hs'
      simp [ruleString, he] at hs'
    · intro s' hs'
      simp [ruleString, he] at hs'
      rw [hs']
      rcases hc : compile s with e | pat
      · exfalso
        simp [compileRule, he, hc, Except.map] at h
      · exact ⟨pat, rfl⟩

/-- When every string a rule asks to compile succeeds, the rule's
compilation succeeds. -/
theorem compileRule_all_ok (compile : PyStr → Except RegexError Pattern)
    (rule : Option PyStr)
    (h : ∀ s ∈ ruleString rule, ∃ pat, compile s = Except.ok pat) :
    ∃ op, (compileRule compile rule).1 = Except.ok op := by
  rcases rule with _ | s
  · exact ⟨none, rfl⟩
  · by_cases he : s = []
    · refine ⟨none, ?_⟩
      simp [compileRule, he]
    · rcases h s (by simp [ruleString, he]) with ⟨pat, hpat⟩
      refine ⟨some pat, ?_⟩
      simp [compileRule, he, hpat, Except.map]

/-- Claim C6: a rule set containing a malformed pattern makes the
constructor fail at configuration time (no provider value is produced,
so no traversal can start); and when all patterns are well formed the
constructor succeeds having passed each present pattern to the regex
compiler exactly once, in source order — compilation happens only at
construction, never per candidate (`file_matches` consumes the stored
compiled patterns and has no access to the compiler). -/
theorem init_compile_behaviour (compile : PyStr → Except RegexError Pattern)
    (args : InitArgs) :
    ((∃ s, s ∈ initRuleStrings args ∧ ∃ e, compile s = Except.error e) →
      ∃ e, (ContextProvider.init compile args).1 = Except.error e) ∧
    ((∀ s, s ∈ initRuleStrings args → ∃ pat, compile s = Except.ok pat) →
      (∃ cp, (ContextProvider.init compile args).1 = Except.ok cp) ∧
      (ContextProvider.init compile args).2 = initRuleStrings args) := by
  have ht1 := compileRule_trace compile args.regex_whitelist
  have ht2 := compileRule_trace compile args.regex_blacklist
  have ht3 := compileRule_trace compile args.regex_path_whitelist
  have ht4 := compileRule_trace compile args.regex_path_blacklist
  rcases hw : compileRule compile args.regex_whitelist with ⟨wres, t1⟩
  rcases hb : compileRule compile args.regex_blacklist with ⟨bres, t2⟩
  rcases hpw : compileRule compile args.regex_path_whitelist with ⟨pwres, t3⟩
  rcases hpb : compileRule compile args.regex_path_blacklist with ⟨pbres, t4⟩
  rw [hw] at ht1; rw [hb] at ht2; rw [hpw] at ht3; rw [hpb] at ht4
  simp only at ht1 ht2 ht3 ht4
  constructor
  · rintro ⟨s, hs, e, he⟩
    rcases wres with e1 | wl
    · exact ⟨e1, by simp [ContextProvider.init, hw]⟩
    · rcases bres with e2 | bl
      · exact ⟨e2, by simp [ContextProvider.init, hw, hb]⟩
      · rcases pwres with e3 | pwl
        · exact ⟨e3, by simp [ContextProvider.init, hw, hb, hpw]⟩
        · rcases pbres with e4 | pbl
          · exact ⟨e4, by simp [ContextProvider.init, hw, hb, hpw, hpb]⟩
          · exfalso
            rw [initRuleStrings] at hs
            have hcontra : ∃ pat, compile s = Except.ok pat := by
              rcases List.mem_append.mp hs with hs' | hs4
              · rcases List.mem_append.mp hs' with hs'' | hs3
                · rcases List.mem_append.mp hs'' with hs1 | hs2
                  · exact compileRule_ok_forward compile args.regex_whitelist wl
                      (by rw [hw]) s hs1
                  · exact compileRule_ok_forward compile args.regex_blacklist bl
                      (by rw [hb]) s hs2
                · exact compileRule_ok_forward compile args.regex_path_whitelist pwl
                    (by rw [hpw]) s hs3
              · exact compileRule_ok_forward compile args.regex_path_blacklist pbl
                  (by rw [hpb]) s hs4
            rcases hcontra with ⟨pat, hpat⟩
            rw [hpat] at he
            exact Except.noConfusion he
  · intro h
    have hok1 := compileRule_all_ok compile args.regex_whitelist
      (fun s hs => h s (by rw [initRuleStrings]; simp [List.mem_append, hs]))
    have hok2 := compileRule_all_ok compile args.regex_blacklist
      (fun s hs => h s (by rw [initRuleStrings]; simp [List.mem_append, hs]))
    have hok3 := compileRule_all_ok compile args.regex_path_whitelist
      (fun s hs => h s (by rw [initRuleStrings]; simp [List.mem_append, hs]))
    have hok4 := compileRule_all_ok compile args.regex_path_blacklist
      (fun s hs => h s (by rw [initRuleStrings]; simp [List.mem_append, hs]))
    rw [hw] at hok1; rw [hb] at hok2; rw [hpw] at hok3; rw [hpb] at hok4
    simp only at hok1 hok2 hok3 hok4
    rcases hok1 with ⟨op1, rfl⟩
    rcases hok2 with ⟨op2, rfl⟩
    rcases hok3 with ⟨op3, rfl⟩
    rcases hok4 with ⟨op4, rfl⟩
    constructor
    · refine ⟨{ directory := args.directory
                regex_whitelist := op1
                regex_blacklist := op2
                allow_hidden := args.allow_hidden
                recursive := args.recursive
                allow_hidden_subdirectories := args.allow_hidden_subdirectories
                regex_path_whitelist := op3
                regex_path_blacklist := op4
                skip_unreadable := args.skip_unreadable
                skip_empty := args.skip_empty }, ?_⟩
      simp [ContextProvider.init, hw, hb, hpw, hpb]
    · rw [initRuleStrings, ← ht1, ← ht2, ← ht3, ← ht4]
      simp [ContextProvider.init, hw, hb, hpw, hpb]

/-- A compiler used in witnesses: every pattern whose first character
is `(` is malformed, everything else compiles to a search predicate. -/
def compileW (s : PyStr) : Except RegexError Pattern :=
  if pyStartsWith s "(".data then Except.error (RegexError.malformed s)
  else Except.ok ⟨fun c => s.isPrefixOf c⟩

/-- Witness rule set whose blacklist pattern is malformed for
`compileW`. -/
def argsBad : InitArgs :=
  { directory := ⟨["proj".data]⟩
    regex_whitelist := some "a".data
    regex_blacklist := some "(bad".data }

/-- Witness rule set whose two present patterns are well formed for
`compileW`. -/
def argsGood : InitArgs :=
  { directory := ⟨["proj".data]⟩
    regex_whitelist := some "a".data
    regex_blacklist := some "b".data }

/-- Witness for C6 at concrete rule sets: a malformed blacklist fails
the construction; a well-formed rule set constructs, compiling exactly
its two present patterns. -/
theorem init_compile_behaviour_witness :
    (∃ e, (ContextProvider.init compileW argsBad).1 = Except.error e) ∧
    (∃ cp, (ContextProvider.init compileW argsGood).1 = Except.ok cp) ∧
    (ContextProvider.init compileW argsGood).2 = initRuleStrings argsGood := by
  have hok : ∀ s ∈ initRuleStrings argsGood, ∃ pat, compileW s = Except.ok pat := by
    intro s hs
    refine ⟨⟨fun c => s.isPrefixOf c⟩, ?_⟩
    have hred : initRuleStrings argsGood = ["a".data, "b".data] := by rfl
    rw [hred] at hs
    rcases List.mem_cons.mp hs with rfl | hs2
    · rfl
    · rcases List.mem_cons.mp hs2 with rfl | hs3
      · rfl
      · exact absurd hs3 (List.not_mem_nil s)
  exact ⟨(init_compile_behaviour compileW argsBad).1
      ⟨"(bad".data, by decide, RegexError.malformed "(bad".data, by rfl⟩,
    ((init_compile_behaviour compileW argsGood).2 hok).1,
    ((init_compile_behaviour compileW argsGood).2 hok).2⟩

/-- A rule set with every regex rule supplied as the empty string
(what the UI fields hold before any preset is applied). -/
def allEmptyRules (args : InitArgs) : InitArgs :=
  { args with
      regex_whitelist := some []
      regex_blacklist := some []
      regex_path_whitelist := some []
      regex_path_blacklist := some [] }

/-- Claim C10: a rule supplied as the empty string is never passed to
the regex compiler and its check is skipped entirely — constructing
with an empty-string rule is literally the same as constructing with
the rule absent; with all four rules empty nothing is compiled, every
pattern slot is `None`, and the filter rejects nothing beyond the
hidden-entry check (in particular an empty-string blacklist rejects
nothing, and an empty-string whitelist rejects nothing). -/
theorem init_empty_string_rules (compile : PyStr → Except RegexError Pattern)
    (args : InitArgs) (p : FsPath) :
    ContextProvider.init compile { args with regex_whitelist := some [] }
      = ContextProvider.init compile { args with regex_whitelist := none } ∧
    ContextProvider.init compile { args with regex_blacklist := some [] }
      = ContextProvider.init compile { args with regex_blacklist := none } ∧
    ContextProvider.init compile { args with regex_path_whitelist := some [] }
      = ContextProvider.init compile { args with regex_path_whitelist := none } ∧
    ContextProvider.init compile { args with regex_path_blacklist := some [] }
      = ContextProvider.init compile { args with regex_path_blacklist := none } ∧
    (ContextProvider.init compile (allEmptyRules args)).2 = [] ∧
    ∃ cp, (ContextProvider.init compile (allEmptyRules args)).1 = Except.ok cp ∧
      cp.regex_whitelist = none ∧ cp.regex_blacklist = none ∧
      cp.regex_path_whitelist = none ∧ cp.regex_path_blacklist = none ∧
      cp.file_matches p = (cp.allow_hidden || !pyStartsWith p.name ".".data) := by
  refine ⟨rfl, rfl, rfl, rfl, rfl, ⟨_, rfl, rfl, rfl, rfl, rfl, ?_⟩⟩
  rcases h : args.allow_hidden <;>
    rcases hs : pyStartsWith p.name ".".data <;>
    simp [ContextProvider.file_matches, h, hs]

end OpenAIHelper
